import Mathlib

/-!
Shallow embedding of the retry / circuit-breaker resilience layer of the
repository (source file: the RetryUtility module).  Pure data is modelled
directly; time (Date.now) becomes an explicit natural-number parameter in
milliseconds; Math.random becomes an explicit rational draw in [0,1);
asynchronous waiting becomes the list of delays the loop would sleep for.
-/

namespace Resilience

/-- A JavaScript error value as inspected by isRetryable: it may carry a
code (a number or a string), a numeric status, and a message. -/
structure JsError where
  code : Option (Nat ⊕ String) := none
  status : Option Nat := none
  message : Option String := none
deriving DecidableEq

/-- The retryable HTTP status codes of the source: [429, 500, 502, 503, 504]. -/
def retryableStatusCodes : List Nat := [429, 500, 502, 503, 504]

/-- The substrings of the message check in isRetryable, all lowercase. -/
def retryableKeywords : List String :=
  ["timeout", "network", "connection", "service unavailable", "rate limit", "quota"]

/-- Whether the list sub occurs at the start of the list big. -/
def listStartsWith : List Char → List Char → Bool
  | _, [] => true
  | [], _ :: _ => false
  | a :: as, b :: bs => a == b && listStartsWith as bs

/-- Whether the list sub occurs contiguously anywhere inside big
(the semantics of String.prototype.includes). -/
def listHasSub : List Char → List Char → Bool
  | [], sub => listStartsWith [] sub
  | a :: t, sub => listStartsWith (a :: t) sub || listHasSub t sub

/-- ASCII lowercasing of a character list (the effect of toLowerCase on
the ASCII messages the source matches against). -/
def lowerList : List Char → List Char
  | [] => []
  | c :: cs => c.toLower :: lowerList cs

/-- message.toLowerCase().includes(k) for each retryable keyword k. -/
def hasRetryableKeyword (m : String) : Bool :=
  retryableKeywords.any (fun k => listHasSub (lowerList m.toList) k.toList)

/-- Embedding of RetryUtility.isRetryable: an error is retryable when its
numeric code or status is one of the retryable HTTP codes, when its string
code is one of the four network-failure codes, or when its lowercased
message contains one of the retryable keywords. -/
def isRetryable (e : JsError) : Bool :=
  (match e.code with
    | some (Sum.inl n) => retryableStatusCodes.contains n
    | _ => false) ||
  (match e.status with
    | some n => retryableStatusCodes.contains n
    | none => false) ||
  (match e.code with
    | some (Sum.inr s) =>
        s == "ECONNRESET" || s == "ENOTFOUND" || s == "ECONNREFUSED" || s == "ETIMEDOUT"
    | _ => false) ||
  (match e.message with
    | some m => hasRetryableKeyword m
    | none => false)

/-- The retry configuration after merging caller options over the defaults.
maxAttempts is an integer so that non-positive caller values can be
modelled; delays are rationals (JavaScript numbers, no rounding in the
delay arithmetic of the source). -/
structure RetryConfig where
  maxAttempts : Int
  initialDelay : ℚ
  maxDelay : ℚ
  backoffFactor : ℚ
  jitter : Bool
deriving DecidableEq

/-- The defaultOptions of the RetryUtility constructor. -/
def defaultOptions : RetryConfig :=
  { maxAttempts := 3, initialDelay := 1000, maxDelay := 10000, backoffFactor := 2,
    jitter := true }

/-- Embedding of RetryUtility.calculateDelay: without jitter the base delay
is returned unchanged; with jitter a random offset of up to a quarter of
the base delay in either direction is added and the result is floored at
100 ms.  The random draw r stands for the Math.random() value. -/
def calculateDelay (baseDelay : ℚ) (config : RetryConfig) (r : ℚ) : ℚ :=
  if config.jitter = false then baseDelay
  else
    let jitter := baseDelay * 0.25 * (r - 0.5) * 2
    max 100 (baseDelay + jitter)

/-- Observable outcome of a retry call: the successful value, an error
thrown by the operation, or the TypeError raised after the loop when
lastError is still undefined (reading lastError.message). -/
inductive RetryOutcome (α : Type) where
  | ok : α → RetryOutcome α
  | opError : JsError → RetryOutcome α
  | jsTypeError : RetryOutcome α
deriving DecidableEq

/-- One run of the attempt loop of RetryUtility.retry.  fuel counts the
remaining loop iterations (initially maxAttempts, clamped at 0), attempt is
the 1-based attempt number, delay the current base delay, lastError the
lastError variable.  op i is what the i-th invocation of the operation
settles to, rand i the Math.random() draw used after attempt i.  Returns
the outcome, the number of times the operation was invoked, and the list
of slept delays. -/
def retryAux (op : Nat → Except JsError α) (config : RetryConfig) (rand : Nat → ℚ) :
    Nat → Nat → ℚ → Option JsError → RetryOutcome α × Nat × List ℚ
  | 0, _, _, lastError =>
      (match lastError with
        | some e => RetryOutcome.opError e
        | none => RetryOutcome.jsTypeError,
       0, [])
  | fuel + 1, attempt, delay, _ =>
      match op attempt with
      | Except.ok a => (RetryOutcome.ok a, 1, [])
      | Except.error e =>
          if isRetryable e = false then
            (RetryOutcome.opError e, 1, [])
          else if fuel = 0 then
            (RetryOutcome.opError e, 1, [])
          else
            let actualDelay := calculateDelay delay config (rand attempt)
            let rest := retryAux op config rand fuel (attempt + 1)
              (min (delay * config.backoffFactor) config.maxDelay) (some e)
            (rest.1, rest.2.1 + 1, actualDelay :: rest.2.2)

/-- Embedding of RetryUtility.retry: run the attempt loop from attempt 1
with delay initialDelay and lastError undefined. -/
def retry (op : Nat → Except JsError α) (config : RetryConfig) (rand : Nat → ℚ) :
    RetryOutcome α × Nat × List ℚ :=
  retryAux op config rand config.maxAttempts.toNat 1 config.initialDelay none

/-- Circuit breaker configuration after merging options over the inline
defaults of createCircuitBreaker. -/
structure BreakerConfig where
  failureThreshold : Nat
  resetTimeout : Nat
  monitoringWindow : Nat
deriving DecidableEq

/-- The inline default breaker configuration of createCircuitBreaker. -/
def breakerDefaultConfig : BreakerConfig :=
  { failureThreshold := 5, resetTimeout := 60000, monitoringWindow := 300000 }

/-- The breaker configuration of the three-failure scenarios: the
defaults with failureThreshold overridden to 3. -/
def breakerConfig3 : BreakerConfig :=
  { breakerDefaultConfig with failureThreshold := 3 }

/-- The three breaker states of the source. -/
inductive BreakerState where
  | CLOSED
  | OPEN
  | HALF_OPEN
deriving DecidableEq

/-- The mutable closure state of one breaker instance: state, failures,
lastFailureTime (none for the initial null) and successes. -/
structure Breaker where
  state : BreakerState
  failures : Nat
  lastFailureTime : Option Nat
  successes : Nat
deriving DecidableEq

/-- The initial breaker state of createCircuitBreaker. -/
def initialBreaker : Breaker :=
  { state := BreakerState.CLOSED, failures := 0, lastFailureTime := none, successes := 0 }

/-- Result of one guarded call: the operation result, the operation error,
or the dedicated circuit-open error. -/
inductive CallResult (α : Type) where
  | ok : α → CallResult α
  | opErr : JsError → CallResult α
  | circuitOpenErr : CallResult α
deriving DecidableEq

/-- The monitoring-window reset at the top of every guarded call: when
lastFailureTime is set and more than monitoringWindow ms have elapsed,
failures and successes are zeroed and the state is forced to CLOSED. -/
def windowReset (config : BreakerConfig) (b : Breaker) (now : Nat) : Breaker :=
  match b.lastFailureTime with
  | some t =>
      if now - t > config.monitoringWindow then
        { b with failures := 0, successes := 0, state := BreakerState.CLOSED }
      else b
  | none => b

/-- The try block of the guarded call: invoke the operation and update the
breaker on its success or failure.  The returned Bool records that the
operation was invoked. -/
def runOp (config : BreakerConfig) (op : Except JsError α) (b : Breaker) (now : Nat) :
    CallResult α × Breaker × Bool :=
  match op with
  | Except.ok a =>
      if b.state = BreakerState.HALF_OPEN then
        let s := b.successes + 1
        if s ≥ 2 then
          (CallResult.ok a,
           { b with successes := s, state := BreakerState.CLOSED, failures := 0 }, true)
        else
          (CallResult.ok a, { b with successes := s }, true)
      else
        (CallResult.ok a, b, true)
  | Except.error e =>
      let f := b.failures + 1
      let newState :=
        if b.state = BreakerState.HALF_OPEN ∨ f ≥ config.failureThreshold then
          BreakerState.OPEN
        else b.state
      (CallResult.opErr e,
       { b with failures := f, lastFailureTime := some now, state := newState }, true)

/-- Embedding of one invocation of the closure returned by
createCircuitBreaker, at wall-clock time now, where op is what the wrapped
operation would settle to if invoked.  Returns the call result, the
updated breaker state, and whether the wrapped operation was invoked. -/
def breakerCall (config : BreakerConfig) (op : Except JsError α) (b0 : Breaker) (now : Nat) :
    CallResult α × Breaker × Bool :=
  let b1 := windowReset config b0 now
  match b1.state with
  | BreakerState.OPEN =>
      match b1.lastFailureTime with
      | some t =>
          if now - t > config.resetTimeout then
            runOp config op { b1 with state := BreakerState.HALF_OPEN, successes := 0 } now
          else
            (CallResult.circuitOpenErr, b1, false)
      | none => (CallResult.circuitOpenErr, b1, false)
  | _ => runOp config op b1 now

/-- Run a sequence of guarded calls, each given as a pair of a call time
and the outcome the wrapped operation would settle to; returns the final
breaker state and the total number of times the wrapped operation was
invoked. -/
def runCalls (config : BreakerConfig) : Breaker → List (Nat × Except JsError α) → Breaker × Nat
  | b, [] => (b, 0)
  | b, (now, op) :: rest =>
      let step := breakerCall config op b now
      let next := runCalls config step.2.1 rest
      (next.1, (if step.2.2 then 1 else 0) + next.2)

/-- A retryable error carrying HTTP status 503, used as a concrete input. -/
def e503 : JsError := { status := some 503 }

/-- A non-retryable error carrying numeric code 400. -/
def e400 : JsError := { code := some (Sum.inl 400) }

/-- C5 counterexample: an error whose numeric code is 400 — one of the
codes the claim says always yields false — but whose message contains the
keyword timeout is classified retryable by the code, so the claim as
stated is false. -/
theorem isRetryable_code400_timeout_message :
    isRetryable { code := some (Sum.inl 400), status := none,
                  message := some "timeout" } = true := by
  decide

/-- C5 (amended): isRetryable returns true for every error whose numeric
code or status is one of 429, 500, 502, 503, 504, for every error whose
string code is one of the four network codes, and for every error whose
lowercased message contains a retryable keyword; it returns false for an
error whose numeric code is 400, 401, 403, 404 or 409 provided its status
is not one of the retryable codes and its message contains no retryable
keyword. -/
theorem isRetryable_classification (e : JsError) :
    (∀ n, e.code = some (Sum.inl n) → n ∈ retryableStatusCodes → isRetryable e = true) ∧
    (∀ n, e.status = some n → n ∈ retryableStatusCodes → isRetryable e = true) ∧
    (∀ s, e.code = some (Sum.inr s) →
        s ∈ (["ECONNRESET", "ENOTFOUND", "ECONNREFUSED", "ETIMEDOUT"] : List String) →
        isRetryable e = true) ∧
    (∀ m, e.message = some m → hasRetryableKeyword m = true → isRetryable e = true) ∧
    (∀ n, e.code = some (Sum.inl n) → n ∈ ([400, 401, 403, 404, 409] : List Nat) →
        (∀ s, e.status = some s → s ∉ retryableStatusCodes) →
        (∀ m, e.message = some m → hasRetryableKeyword m = false) →
        isRetryable e = false) := by
  refine ⟨?_, ?_, ?_, ?_, ?_⟩
  · intro n hc hn
    simp [isRetryable, hc, hn]
  · intro n hs hn
    simp [isRetryable, hs, hn]
  · intro s hc hs
    simp only [List.mem_cons, List.not_mem_nil, or_false] at hs
    rcases hs with rfl | rfl | rfl | rfl <;> simp [isRetryable, hc]
  · intro m hm hk
    simp [isRetryable, hm, hk]
  · intro n hc hn hstatus hmsg
    obtain ⟨c, st, msg⟩ := e
    subst hc
    simp only [List.mem_cons, List.not_mem_nil, or_false] at hn
    cases st with
    | none =>
        cases msg with
        | none => rcases hn with rfl | rfl | rfl | rfl | rfl <;> decide
        | some m =>
            have hk := hmsg m rfl
            rcases hn with rfl | rfl | rfl | rfl | rfl <;> simp [isRetryable, hk, retryableStatusCodes]
    | some s =>
        have hs := hstatus s rfl
        simp only [retryableStatusCodes, List.mem_cons, List.not_mem_nil, or_false,
          not_or] at hs
        cases msg with
        | none => rcases hn with rfl | rfl | rfl | rfl | rfl <;> simp [isRetryable, hs, retryableStatusCodes]
        | some m =>
            have hk := hmsg m rfl
            rcases hn with rfl | rfl | rfl | rfl | rfl <;> simp [isRetryable, hs, hk, retryableStatusCodes]

/-- C5 witness: the five parts of the classification theorem applied at
concrete errors. -/
theorem isRetryable_classification_witness :
    isRetryable { code := some (Sum.inl 429), status := none, message := none } = true ∧
    isRetryable e503 = true ∧
    isRetryable { code := some (Sum.inr "ECONNRESET"), status := none, message := none } = true ∧
    isRetryable { code := none, status := none, message := some "Request timeout" } = true ∧
    isRetryable { code := some (Sum.inl 404), status := some 200, message := some "gone" } = false := by
  refine ⟨?_, ?_, ?_, ?_, ?_⟩
  · exact (isRetryable_classification _).1 429 rfl (by decide)
  · exact (isRetryable_classification e503).2.1 503 rfl (by decide)
  · exact (isRetryable_classification _).2.2.1 "ECONNRESET" rfl (by decide)
  · exact (isRetryable_classification _).2.2.2.1 "Request timeout" rfl (by decide)
  · exact (isRetryable_classification _).2.2.2.2 404 rfl (by decide)
      (by intro s hs; cases Option.some.inj hs; decide)
      (by intro m hm; cases Option.some.inj hm; decide)

/-- C7: calculateDelay(1000, jitter off) is exactly 1000, and with jitter
on, for every random draw r in the unit interval the delay lies in
[750, 1250] and in particular is at least 100. -/
theorem calculateDelay_bounds (r : ℚ) (h0 : 0 ≤ r) (h1 : r < 1) :
    calculateDelay 1000 { defaultOptions with jitter := false } r = 1000 ∧
    (750 ≤ calculateDelay 1000 defaultOptions r ∧
     calculateDelay 1000 defaultOptions r ≤ 1250 ∧
     100 ≤ calculateDelay 1000 defaultOptions r) := by
  have hform : calculateDelay 1000 defaultOptions r
      = max 100 (1000 + 1000 * 0.25 * (r - 0.5) * 2) := by
    simp [calculateDelay, defaultOptions]
  have hval : (1000 : ℚ) + 1000 * 0.25 * (r - 0.5) * 2 = 750 + 500 * r := by ring
  refine ⟨by simp [calculateDelay], ?_, ?_, ?_⟩
  · rw [hform, hval]
    exact le_max_of_le_right (by linarith)
  · rw [hform, hval]
    exact max_le (by norm_num) (by linarith)
  · rw [hform]
    exact le_max_left _ _

/-- Helper: when every attempt fails with a retryable error, the attempt
loop consumes all its fuel and ends with the error of its last attempt. -/
theorem retryAux_all_fail (op : Nat → Except JsError α) (e : Nat → JsError)
    (config : RetryConfig) (rand : Nat → ℚ)
    (hop : ∀ i, op i = Except.error (e i)) (hret : ∀ i, isRetryable (e i) = true) :
    ∀ fuel attempt delay le, 1 ≤ fuel →
      (retryAux op config rand fuel attempt delay le).2.1 = fuel ∧
      (retryAux op config rand fuel attempt delay le).1
        = RetryOutcome.opError (e (attempt + fuel - 1)) := by
  intro fuel
  induction fuel with
  | zero => intro attempt delay le h; omega
  | succ k ih =>
      intro attempt delay le _
      by_cases hk : k = 0
      · subst hk
        simp [retryAux, hop attempt, hret attempt]
      · have hk1 : 1 ≤ k := Nat.one_le_iff_ne_zero.mpr hk
        have hrec := ih (attempt + 1)
          (min (delay * config.backoffFactor) config.maxDelay) (some (e attempt)) hk1
        have harith : attempt + 1 + k - 1 = attempt + (k + 1) - 1 := by omega
        rw [harith] at hrec
        simp [retryAux, hop attempt, hret attempt, hk, hrec.1, hrec.2]

/-- C4: with at least one allowed attempt and an operation that fails on
every invocation with a retryable error, retry invokes the operation
exactly maxAttempts times and then propagates the error produced by the
final attempt. -/
theorem retry_retryable_exhaustion (op : Nat → Except JsError α) (e : Nat → JsError)
    (config : RetryConfig) (rand : Nat → ℚ)
    (hN : 1 ≤ config.maxAttempts)
    (hop : ∀ i, op i = Except.error (e i)) (hret : ∀ i, isRetryable (e i) = true) :
    (retry op config rand).2.1 = config.maxAttempts.toNat ∧
    (retry op config rand).1 = RetryOutcome.opError (e config.maxAttempts.toNat) := by
  have hfuel : 1 ≤ config.maxAttempts.toNat := by omega
  have h := retryAux_all_fail op e config rand hop hret config.maxAttempts.toNat 1
    config.initialDelay none hfuel
  have harith : 1 + config.maxAttempts.toNat - 1 = config.maxAttempts.toNat := by omega
  rw [harith] at h
  exact ⟨h.1, h.2⟩

/-- C4 witness: two attempts of an operation that always fails with
status 503. -/
theorem retry_retryable_exhaustion_witness :
    (retry (fun _ => (Except.error e503 : Except JsError Unit))
        { defaultOptions with maxAttempts := 2 } (fun _ => 0)).2.1
      = ({ defaultOptions with maxAttempts := 2 } : RetryConfig).maxAttempts.toNat ∧
    (retry (fun _ => (Except.error e503 : Except JsError Unit))
        { defaultOptions with maxAttempts := 2 } (fun _ => 0)).1
      = RetryOutcome.opError e503 :=
  retry_retryable_exhaustion (fun _ => Except.error e503) (fun _ => e503)
    { defaultOptions with maxAttempts := 2 } (fun _ => 0)
    (by decide) (fun _ => rfl) (fun _ => (by decide : isRetryable e503 = true))

/-- C6 counterexample: called with maxAttempts 0, the attempt loop never
runs, so an operation whose first failure would be non-retryable is
invoked zero times rather than exactly once, and the call does not
propagate an operation error. -/
theorem retry_nonretryable_zero_attempts :
    (retry (fun _ => (Except.error e400 : Except JsError Unit))
        { defaultOptions with maxAttempts := 0 } (fun _ => 0)).2.1 = 0 ∧
    (retry (fun _ => (Except.error e400 : Except JsError Unit))
        { defaultOptions with maxAttempts := 0 } (fun _ => 0)).1
      = RetryOutcome.jsTypeError :=
  ⟨rfl, rfl⟩

/-- C6 (amended): for every maxAttempts ≥ 1, an operation whose first
invocation fails with a non-retryable error is invoked exactly once, no
delay is slept, and that error is propagated unchanged. -/
theorem retry_nonretryable_single_attempt (op : Nat → Except JsError α)
    (e : JsError) (config : RetryConfig) (rand : Nat → ℚ)
    (hN : 1 ≤ config.maxAttempts)
    (hop : op 1 = Except.error e) (hret : isRetryable e = false) :
    retry op config rand = (RetryOutcome.opError e, 1, []) := by
  obtain ⟨k, hk⟩ : ∃ k, config.maxAttempts.toNat = k + 1 :=
    ⟨config.maxAttempts.toNat - 1, by omega⟩
  rw [retry, hk]
  simp [retryAux, hop, hret]

/-- C6 witness: one non-retryable failure under maxAttempts 3. -/
theorem retry_nonretryable_single_attempt_witness :
    retry (fun _ => (Except.error e400 : Except JsError Unit))
        { defaultOptions with maxAttempts := 3 } (fun _ => 0)
      = (RetryOutcome.opError e400, 1, []) :=
  retry_nonretryable_single_attempt (fun _ => Except.error e400) e400
    { defaultOptions with maxAttempts := 3 } (fun _ => 0)
    (by decide) rfl (by decide)

/-- Helper: with fuel left, the attempt loop never ends in the TypeError
outcome. -/
theorem retryAux_ne_typeError (op : Nat → Except JsError α) (config : RetryConfig)
    (rand : Nat → ℚ) :
    ∀ fuel attempt delay le, 1 ≤ fuel →
      (retryAux op config rand fuel attempt delay le).1 ≠ RetryOutcome.jsTypeError := by
  intro fuel
  induction fuel with
  | zero => intro attempt delay le h; omega
  | succ k ih =>
      intro attempt delay le _
      rw [retryAux]
      cases hop : op attempt with
      | ok a => simp
      | error e0 =>
          by_cases hret : isRetryable e0 = false
          · simp [hret]
          · by_cases hk : k = 0
            · simp [hret, hk]
            · have hk1 : 1 ≤ k := Nat.one_le_iff_ne_zero.mpr hk
              simp only [hret, hk, if_false]
              exact ih (attempt + 1)
                (min (delay * config.backoffFactor) config.maxDelay) (some e0) hk1

/-- Helper: an operation error returned by the attempt loop is either the
incoming lastError with no fuel left, or was produced by an invocation of
the operation inside the range of the loop. -/
theorem retryAux_opError_source (op : Nat → Except JsError α) (config : RetryConfig)
    (rand : Nat → ℚ) (e : JsError) :
    ∀ fuel attempt delay le,
      (retryAux op config rand fuel attempt delay le).1 = RetryOutcome.opError e →
      (fuel = 0 ∧ le = some e) ∨
      ∃ i, attempt ≤ i ∧ i < attempt + fuel ∧ op i = Except.error e := by
  intro fuel
  induction fuel with
  | zero =>
      intro attempt delay le h
      left
      cases le with
      | none => simp [retryAux] at h
      | some e0 =>
          simp [retryAux] at h
          exact ⟨rfl, by rw [h]⟩
  | succ k ih =>
      intro attempt delay le h
      right
      rw [retryAux] at h
      cases hop : op attempt with
      | ok a => rw [hop] at h; simp at h
      | error e0 =>
          rw [hop] at h
          by_cases hret : isRetryable e0 = false
          · simp [hret] at h
            exact ⟨attempt, le_refl _, by omega, by rw [hop, h]⟩
          · by_cases hk : k = 0
            · simp [hret, hk] at h
              exact ⟨attempt, le_refl _, by omega, by rw [hop, h]⟩
            · simp only [hret, hk, if_false] at h
              rcases ih (attempt + 1)
                  (min (delay * config.backoffFactor) config.maxDelay) (some e0) h with
                hleft | ⟨i, hi1, hi2, hi3⟩
              · exact absurd hleft.1 hk
              · exact ⟨i, by omega, by omega, hi3⟩

/-- C10: when maxAttempts ≥ 1 the call never ends in the TypeError
outcome and every error it propagates was produced by the operation at
some attempt within range; when maxAttempts ≤ 0 the attempt loop never
runs, the operation is never invoked, and the call ends in the TypeError
raised by reading the message of the undefined lastError. -/
theorem retry_totality (op : Nat → Except JsError α) (config : RetryConfig)
    (rand : Nat → ℚ) :
    (1 ≤ config.maxAttempts →
      (retry op config rand).1 ≠ RetryOutcome.jsTypeError ∧
      ∀ e, (retry op config rand).1 = RetryOutcome.opError e →
        ∃ i, 1 ≤ i ∧ i ≤ config.maxAttempts.toNat ∧ op i = Except.error e) ∧
    (config.maxAttempts ≤ 0 →
      (retry op config rand).2.1 = 0 ∧
      (retry op config rand).1 = RetryOutcome.jsTypeError) := by
  constructor
  · intro hN
    have hfuel : 1 ≤ config.maxAttempts.toNat := by omega
    constructor
    · exact retryAux_ne_typeError op config rand config.maxAttempts.toNat 1
        config.initialDelay none hfuel
    · intro e he
      rcases retryAux_opError_source op config rand e config.maxAttempts.toNat 1
          config.initialDelay none he with hleft | ⟨i, hi1, hi2, hi3⟩
      · exact absurd hleft.2 (by simp)
      · exact ⟨i, hi1, by omega, hi3⟩
  · intro hN
    have h0 : config.maxAttempts.toNat = 0 := by omega
    rw [retry, h0]
    exact ⟨rfl, rfl⟩

/-- C10 witness: the in-range provenance of the propagated error at
maxAttempts 1, and the TypeError outcome with zero invocations at
maxAttempts 0. -/
theorem retry_totality_witness :
    (∃ i, 1 ≤ i ∧ i ≤ ({ defaultOptions with maxAttempts := 1 } : RetryConfig).maxAttempts.toNat ∧
      (fun _ => (Except.error e400 : Except JsError Unit)) i = Except.error e400) ∧
    ((retry (fun _ => (Except.error e400 : Except JsError Unit))
        { defaultOptions with maxAttempts := 0 } (fun _ => 0)).2.1 = 0 ∧
     (retry (fun _ => (Except.error e400 : Except JsError Unit))
        { defaultOptions with maxAttempts := 0 } (fun _ => 0)).1
       = RetryOutcome.jsTypeError) := by
  constructor
  · exact ((retry_totality (fun _ => (Except.error e400 : Except JsError Unit))
      { defaultOptions with maxAttempts := 1 } (fun _ => 0)).1 (by decide)).2 e400 rfl
  · exact (retry_totality (fun _ => (Except.error e400 : Except JsError Unit))
      { defaultOptions with maxAttempts := 0 } (fun _ => 0)).2 (by decide)

/-- C8: with maxAttempts 3, initialDelay 100, backoffFactor 2 and jitter
off, an operation that fails with status 503 on its first two invocations
and succeeds on the third is invoked exactly 3 times, the loop sleeps
100 ms before the second attempt and 200 ms before the third, and the
successful result is returned. -/
theorem retry_backoff_scenario :
    retry (fun i => if i ≤ 2 then Except.error e503 else Except.ok 42)
      { defaultOptions with
          maxAttempts := 3, initialDelay := 100, backoffFactor := 2, jitter := false }
      (fun _ => 0)
    = (RetryOutcome.ok 42, 3, [100, 200]) := by
  rw [retry]
  norm_num [retryAux, calculateDelay, isRetryable, e503, retryableStatusCodes,
    defaultOptions, min_def]

/-- C1 counterexample: a breaker in the CLOSED state with 2 accumulated
failures still has 2 failures after a successful call made inside the
monitoring window — the success does not reset the count to 0. -/
theorem closed_success_keeps_failures :
    (breakerCall breakerDefaultConfig (Except.ok ())
      { state := BreakerState.CLOSED, failures := 2, lastFailureTime := some 100,
        successes := 0 } 200).2.1.failures = 2 := by
  decide

/-- C1 (amended): while in the CLOSED state and inside the monitoring
window, a successful invocation leaves the breaker — its accumulated
failure count included — completely unchanged; failures therefore keep
accumulating across interleaved successes, and with failureThreshold 3
the interleaved sequence fail, success, fail, success, fail opens the
circuit. -/
theorem closed_success_leaves_failures (config : BreakerConfig) (b : Breaker)
    (now : Nat) (a : α)
    (hclosed : b.state = BreakerState.CLOSED)
    (hwin : ∀ t, b.lastFailureTime = some t → now - t ≤ config.monitoringWindow) :
    breakerCall config (Except.ok a) b now = (CallResult.ok a, b, true) ∧
    (runCalls breakerConfig3 initialBreaker
      [(1, (Except.error e503 : Except JsError Unit)), (2, Except.ok ()),
       (3, Except.error e503), (4, Except.ok ()), (5, Except.error e503)]).1.state
      = BreakerState.OPEN := by
  refine ⟨?_, by decide⟩
  have hb1 : windowReset config b now = b := by
    unfold windowReset
    cases hlt : b.lastFailureTime with
    | none => rfl
    | some t =>
        have hle := hwin t hlt
        have hneg : ¬ (config.monitoringWindow < now - t) := by omega
        simp [hneg]
  simp [breakerCall, hb1, hclosed, runOp]

/-- C1 witness: the unchanged-breaker conclusion at a concrete CLOSED
breaker with 2 failures. -/
theorem closed_success_leaves_failures_witness :
    breakerCall breakerDefaultConfig (Except.ok (0 : Nat))
      { state := BreakerState.CLOSED, failures := 2, lastFailureTime := some 100,
        successes := 0 } 200
      = (CallResult.ok 0,
         { state := BreakerState.CLOSED, failures := 2, lastFailureTime := some 100,
           successes := 0 }, true) ∧
    (runCalls breakerConfig3 initialBreaker
      [(1, (Except.error e503 : Except JsError Unit)), (2, Except.ok ()),
       (3, Except.error e503), (4, Except.ok ()), (5, Except.error e503)]).1.state
      = BreakerState.OPEN :=
  closed_success_leaves_failures breakerDefaultConfig
    { state := BreakerState.CLOSED, failures := 2, lastFailureTime := some 100,
      successes := 0 } 200 0 rfl
    (by intro t ht; cases Option.some.inj ht; decide)

/-- C2: with failureThreshold 3, three consecutive failing calls open the
circuit with the operation invoked 3 times in total; any fourth call made
before resetTimeout has elapsed since the last failure is rejected with
the dedicated circuit-open error, does not invoke the operation (whatever
that call would have returned), and leaves the breaker — its failure
count of 3 included — unchanged. -/
theorem breaker_opens_after_three_failures (op4 : Except JsError Unit) (now4 : Nat)
    (h4 : now4 - 30 < 60000) :
    runCalls breakerConfig3 initialBreaker
      [(10, (Except.error e503 : Except JsError Unit)), (20, Except.error e503),
       (30, Except.error e503)]
      = ({ state := BreakerState.OPEN, failures := 3, lastFailureTime := some 30,
           successes := 0 }, 3) ∧
    breakerCall breakerConfig3 op4
      { state := BreakerState.OPEN, failures := 3, lastFailureTime := some 30,
        successes := 0 } now4
      = (CallResult.circuitOpenErr,
         { state := BreakerState.OPEN, failures := 3, lastFailureTime := some 30,
           successes := 0 }, false) := by
  refine ⟨by decide, ?_⟩
  have hwin : ¬ ((300000 : Nat) < now4 - 30) := by omega
  have hreset : ¬ ((60000 : Nat) < now4 - 30) := by omega
  simp [breakerCall, windowReset, breakerConfig3, breakerDefaultConfig, hwin, hreset]

/-- C2 witness: the fourth call at time 31, one millisecond after the
third failure. -/
theorem breaker_opens_after_three_failures_witness :
    runCalls breakerConfig3 initialBreaker
      [(10, (Except.error e503 : Except JsError Unit)), (20, Except.error e503),
       (30, Except.error e503)]
      = ({ state := BreakerState.OPEN, failures := 3, lastFailureTime := some 30,
           successes := 0 }, 3) ∧
    breakerCall breakerConfig3 (Except.ok ())
      { state := BreakerState.OPEN, failures := 3, lastFailureTime := some 30,
        successes := 0 } 31
      = (CallResult.circuitOpenErr,
         { state := BreakerState.OPEN, failures := 3, lastFailureTime := some 30,
           successes := 0 }, false) :=
  breaker_opens_after_three_failures (Except.ok ()) 31 (by decide)

/-- C3 counterexample: in the OPEN state with exactly resetTimeout ms
elapsed since the last failure — so at least resetTimeout has elapsed —
the call is still rejected without invoking the operation, because the
code requires strictly more than resetTimeout ms. -/
theorem open_at_exact_resetTimeout_rejected :
    breakerCall breakerDefaultConfig (Except.ok ())
      { state := BreakerState.OPEN, failures := 5, lastFailureTime := some 1,
        successes := 0 } 60001
      = (CallResult.circuitOpenErr,
         { state := BreakerState.OPEN, failures := 5, lastFailureTime := some 1,
           successes := 0 }, false) := by
  decide

/-- C3 (amended): in the OPEN state, once strictly more than resetTimeout
(and at most monitoringWindow) ms have elapsed since the last failure the
next call is allowed through as a HALF_OPEN probe with the success count
reset to 0 before it runs: a successful probe leaves the breaker
HALF_OPEN with one success, a failing probe reopens the circuit; in the
HALF_OPEN state (inside the window) a failure immediately returns the
breaker to OPEN, and a success when one success is already recorded — the
second success — closes the circuit and resets the failure count to 0. -/
theorem breaker_half_open_cycle (config : BreakerConfig) (b : Breaker) (now : Nat)
    (e : JsError) :
    (∀ t, b.state = BreakerState.OPEN → b.lastFailureTime = some t →
        now - t > config.resetTimeout → now - t ≤ config.monitoringWindow →
        breakerCall config (Except.ok ()) b now
          = (CallResult.ok (),
             { b with state := BreakerState.HALF_OPEN, successes := 1 }, true) ∧
        breakerCall config (Except.error e : Except JsError Unit) b now
          = (CallResult.opErr e,
             { b with state := BreakerState.OPEN, successes := 0,
                      failures := b.failures + 1, lastFailureTime := some now },
             true)) ∧
    (b.state = BreakerState.HALF_OPEN →
      (∀ t, b.lastFailureTime = some t → now - t ≤ config.monitoringWindow) →
      breakerCall config (Except.error e : Except JsError Unit) b now
        = (CallResult.opErr e,
           { b with state := BreakerState.OPEN, failures := b.failures + 1,
                    lastFailureTime := some now },
           true) ∧
      (b.successes = 1 →
        breakerCall config (Except.ok ()) b now
          = (CallResult.ok (),
             { b with state := BreakerState.CLOSED, successes := 2, failures := 0 },
             true))) := by
  obtain ⟨st, f, lft, sc⟩ := b
  constructor
  · intro t hopen hlt hgt hle
    simp only at hopen hlt
    subst hopen
    subst hlt
    have hb1 : windowReset config
        { state := BreakerState.OPEN, failures := f, lastFailureTime := some t,
          successes := sc } now
        = { state := BreakerState.OPEN, failures := f, lastFailureTime := some t,
            successes := sc } := by
      have hneg : ¬ (config.monitoringWindow < now - t) := by omega
      simp [windowReset, hneg]
    constructor
    · simp [breakerCall, hb1, hgt, runOp]
    · simp [breakerCall, hb1, hgt, runOp]
  · intro hhalf hwin
    simp only at hhalf
    subst hhalf
    have hb1 : windowReset config
        { state := BreakerState.HALF_OPEN, failures := f, lastFailureTime := lft,
          successes := sc } now
        = { state := BreakerState.HALF_OPEN, failures := f, lastFailureTime := lft,
            successes := sc } := by
      cases hlt : lft with
      | none => rfl
      | some t =>
          have hle := hwin t (by simpa using hlt)
          have hneg : ¬ (config.monitoringWindow < now - t) := by omega
          simp [windowReset, hneg]
    constructor
    · simp [breakerCall, hb1, runOp]
    · intro hsc
      simp only at hsc
      subst hsc
      simp [breakerCall, hb1, runOp]

/-- C3 witness: the full half-open cycle at the default configuration,
with the probe let through at 60001 ms after the failure at time 0. -/
theorem breaker_half_open_cycle_witness :
    (breakerCall breakerDefaultConfig (Except.ok ())
      { state := BreakerState.OPEN, failures := 5, lastFailureTime := some 1,
        successes := 0 } 60002
      = (CallResult.ok (),
         { state := BreakerState.HALF_OPEN, failures := 5, lastFailureTime := some 1,
           successes := 1 }, true) ∧
     breakerCall breakerDefaultConfig (Except.error e503 : Except JsError Unit)
      { state := BreakerState.OPEN, failures := 5, lastFailureTime := some 1,
        successes := 0 } 60002
      = (CallResult.opErr e503,
         { state := BreakerState.OPEN, failures := 6, lastFailureTime := some 60002,
           successes := 0 }, true)) ∧
    (breakerCall breakerDefaultConfig (Except.error e503 : Except JsError Unit)
      { state := BreakerState.HALF_OPEN, failures := 5, lastFailureTime := some 1,
        successes := 1 } 100
      = (CallResult.opErr e503,
         { state := BreakerState.OPEN, failures := 6, lastFailureTime := some 100,
           successes := 1 }, true) ∧
     breakerCall breakerDefaultConfig (Except.ok ())
      { state := BreakerState.HALF_OPEN, failures := 5, lastFailureTime := some 1,
        successes := 1 } 100
      = (CallResult.ok (),
         { state := BreakerState.CLOSED, failures := 0, lastFailureTime := some 1,
           successes := 2 }, true)) := by
  constructor
  · exact (breaker_half_open_cycle breakerDefaultConfig
      { state := BreakerState.OPEN, failures := 5, lastFailureTime := some 1,
        successes := 0 } 60002 e503).1 1 rfl rfl (by decide) (by decide)
  · have h := (breaker_half_open_cycle breakerDefaultConfig
      { state := BreakerState.HALF_OPEN, failures := 5, lastFailureTime := some 1,
        successes := 1 } 100 e503).2 rfl
      (by intro t ht; cases Option.some.inj ht; decide)
    exact ⟨h.1, h.2 rfl⟩

/-- C9 counterexample: the window reset keys off the most recent failure
only, so failures spaced closer than monitoringWindow to one another
never trigger it.  With the default threshold 5 and window 300000 ms,
failures at times 1000, 200000, 400000, 600000 and 800000 open the
circuit at time 800000 with all five failures counted, even though the
first of them is 799000 ms old — more than monitoringWindow — at that
moment.  So a failure older than monitoringWindow can still contribute
to opening the circuit. -/
theorem stale_failure_contributes_to_opening :
    runCalls breakerDefaultConfig initialBreaker
      [(1000, (Except.error e503 : Except JsError Unit)), (200000, Except.error e503),
       (400000, Except.error e503), (600000, Except.error e503),
       (800000, Except.error e503)]
      = ({ state := BreakerState.OPEN, failures := 5, lastFailureTime := some 800000,
           successes := 0 }, 5) ∧
    800000 - 1000 > breakerDefaultConfig.monitoringWindow := by
  decide

/-- C9 (amended): in any state, when lastFailureTime is set and more than
monitoringWindow ms have elapsed since it, the pre-call reset zeroes the
failure and success counts and forces the state to CLOSED before the call
is evaluated — the call then proceeds from that reset state, so a failure
on the current call restarts the count at 1.  The reset is keyed to the
most recent failure only: it bounds how long failure state survives after
the last failure, but failures spaced within the window of one another
keep refreshing lastFailureTime, so failures older than monitoringWindow
can still count toward opening the circuit. -/
theorem breaker_window_reset (config : BreakerConfig) (b : Breaker) (now t : Nat)
    (e : JsError)
    (hlt : b.lastFailureTime = some t) (hgt : now - t > config.monitoringWindow) :
    windowReset config b now
      = { b with state := BreakerState.CLOSED, failures := 0, successes := 0 } ∧
    breakerCall config (Except.error e : Except JsError Unit) b now
      = runOp config (Except.error e)
          { b with state := BreakerState.CLOSED, failures := 0, successes := 0 } now ∧
    (breakerCall config (Except.error e : Except JsError Unit) b now).2.1.failures
      = 1 := by
  have hb1 : windowReset config b now
      = { b with state := BreakerState.CLOSED, failures := 0, successes := 0 } := by
    unfold windowReset
    rw [hlt]
    simp [hgt]
  refine ⟨hb1, ?_, ?_⟩
  · simp [breakerCall, hb1]
  · simp [breakerCall, hb1, runOp]

/-- C9 witness: a breaker stuck OPEN with 4 stale failures is reset and
its next failure counts as 1, at one millisecond past the default
monitoring window. -/
theorem breaker_window_reset_witness :
    windowReset breakerDefaultConfig
      { state := BreakerState.OPEN, failures := 4, lastFailureTime := some 1,
        successes := 0 } 300002
      = { state := BreakerState.CLOSED, failures := 0, lastFailureTime := some 1,
          successes := 0 } ∧
    breakerCall breakerDefaultConfig (Except.error e503 : Except JsError Unit)
      { state := BreakerState.OPEN, failures := 4, lastFailureTime := some 1,
        successes := 0 } 300002
      = runOp breakerDefaultConfig (Except.error e503)
          { state := BreakerState.CLOSED, failures := 0, lastFailureTime := some 1,
            successes := 0 } 300002 ∧
    (breakerCall breakerDefaultConfig (Except.error e503 : Except JsError Unit)
      { state := BreakerState.OPEN, failures := 4, lastFailureTime := some 1,
        successes := 0 } 300002).2.1.failures = 1 :=
  breaker_window_reset breakerDefaultConfig
    { state := BreakerState.OPEN, failures := 4, lastFailureTime := some 1,
      successes := 0 } 300002 1 e503 rfl (by decide)

/-- C7 witness: the bounds at the concrete draw r = 1/2. -/
theorem calculateDelay_bounds_witness :
    calculateDelay 1000 { defaultOptions with jitter := false } (1 / 2) = 1000 ∧
    (750 ≤ calculateDelay 1000 defaultOptions (1 / 2) ∧
     calculateDelay 1000 defaultOptions (1 / 2) ≤ 1250 ∧
     100 ≤ calculateDelay 1000 defaultOptions (1 / 2)) :=
  calculateDelay_bounds (1 / 2) (by norm_num) (by norm_num)

end Resilience
